import Mathlib

/-!
# Hiraishin VPN — Route Telemetry & Selection Engine: a verification development

Shallow embedding of the core of the Hiraishin VPN application
(`src/main.js`, `src/wg-controller.js`, `src/probe.js`):

* the scoring function `calculateRouteScore` (main.js 159–168),
* the metrics cache inside `NetworkProbe.analyzeRoute` (probe.js 87–125),
* the analysis cycle `analyzeRoutes` (main.js 136–157),
* the connection lifecycle (`connectToRoute`, `disconnect`, main.js 179–202),
* the analysis scheduler (`startNetworkAnalysis` / `stopNetworkAnalysis`,
  main.js 109–134),
* route discovery `discoverRoutes` and `parseLinuxRoutes` (probe.js 16–84,
  316–335).

JavaScript numbers are modelled by `ℚ` (all computations the theorems touch
are exact), timestamps by `ℕ` (milliseconds, as produced by `Date.now()`),
and the JS `Map` backing the cache by an association list whose `set`
replaces the previous binding for the key.  Fallible collaborator calls
(probe measurements, `wg` invocations, collector enumeration) are passed in
as `Except String _` values, mirroring the promise-rejection channel.
-/

namespace Hiraishin

/-- A metrics sample, as assembled by `NetworkProbe.analyzeRoute`
(probe.js 101–108) on success, or by its `catch` arm (probe.js 120–123) /
the `catch` arm of `analyzeRoutes` (main.js 146) on failure.  Error samples
produced by the code leave the numeric fields undefined; the embedding
stores `0` there — `calculateRouteScore` never reads them when the error
string is non-empty, matching JS truthiness of `metrics.error`. -/
structure MetricsSample where
  latency : ℚ
  throughput : ℚ
  stability : ℚ
  packetLoss : ℚ
  jitter : ℚ
  error : Option String
  timestamp : ℕ
  deriving Repr, DecidableEq

/-- JS truthiness of the `error` field: `undefined` and `""` are falsy,
every non-empty string is truthy. -/
def errTruthy : Option String → Bool
  | none => false
  | some s => s ≠ ""

/-- `HiraishinVPN.calculateRouteScore` (main.js 159–168):

```js
calculateRouteScore(metrics) {
  if (metrics.error) return 0;
  const latencyScore = Math.max(0, 100 - metrics.latency);
  const throughputScore = Math.min(100, metrics.throughput / 10);
  const stabilityScore = metrics.stability * 100;
  return (latencyScore * 0.4 + throughputScore * 0.4 + stabilityScore * 0.2);
}
``` -/
def calculateRouteScore (metrics : MetricsSample) : ℚ :=
  if errTruthy metrics.error then 0
  else
    let latencyScore := max 0 (100 - metrics.latency)
    let throughputScore := min 100 (metrics.throughput / 10)
    let stabilityScore := metrics.stability * 100
    latencyScore * 0.4 + throughputScore * 0.4 + stabilityScore * 0.2

/-- The sample `RouteA(latency=10, throughput=500, stability=0.95)` from the
spec's end-to-end scenario. -/
def sampleA : MetricsSample :=
  { latency := 10, throughput := 500, stability := 0.95
    packetLoss := 0, jitter := 0, error := none, timestamp := 0 }

/-- The sample `RouteB(latency=200, throughput=5, stability=0.2)` from the
spec's end-to-end scenario. -/
def sampleB : MetricsSample :=
  { latency := 200, throughput := 5, stability := 0.2
    packetLoss := 0, jitter := 0, error := none, timestamp := 0 }

example : calculateRouteScore sampleA = 75 := by
  norm_num [calculateRouteScore, sampleA, errTruthy]
example : calculateRouteScore sampleB = 4.2 := by
  norm_num [calculateRouteScore, sampleB, errTruthy]

/-- A candidate network path, the union of the three object shapes pushed by
`NetworkProbe.discoverRoutes` (probe.js 34–44, 50–60, 65–74).  Fields a
shape leaves undefined are `none`. -/
structure Route where
  id : String
  name : String
  kind : String
  ip : Option String := none
  mac : Option String := none
  speed : Option ℚ := none
  ssid : Option String := none
  signal : Option ℚ := none
  security : Option String := none
  destination : Option String := none
  gateway : Option String := none
  iface : String
  metrics : Option MetricsSample := none
  lastAnalyzed : Option ℕ := none
  deriving Repr, DecidableEq

/-! ## Metrics cache (`NetworkProbe`, probe.js 9–13, 87–125, 356–358)

`this.cache` is a JS `Map` from route id to `{data, timestamp}`; the
embedding uses an association list, with `Map.get`/`Map.set` semantics
(`set` replaces the binding for an existing key). -/

/-- One cache entry: `{ data: metrics, timestamp: Date.now() }`
(probe.js 111–114). -/
structure CacheEntry where
  data : MetricsSample
  timestamp : ℕ
  deriving Repr, DecidableEq

/-- The probe's cache: `Map<routeId, CacheEntry>`. -/
abbrev Cache := List (String × CacheEntry)

/-- `Map.prototype.get` on the cache (also covering `Map.prototype.has`:
the entry exists iff `mapGet` is `some`). -/
def mapGet (cache : Cache) (key : String) : Option CacheEntry :=
  (List.find? (fun p => p.1 = key) cache).map (fun p => p.2)

/-- `Map.prototype.set`: binds `key` to `entry`, replacing any previous
binding for `key`. -/
def mapSet (cache : Cache) (key : String) (entry : CacheEntry) : Cache :=
  (key, entry) :: List.filter (fun p => ¬ (p.1 = key)) cache

/-- `this.cacheTimeout = 30000` (probe.js 12). -/
def cacheTimeout : ℕ := 30000

/-- The freshness test of probe.js 91–96, factored as the cache's read
operation: a `some` result is a hit served from the cache, `none` is a miss
(no entry, or entry at least `cacheTimeout` old).  `now - cached.timestamp <
cacheTimeout` uses truncated subtraction, which agrees with the JS
comparison whenever `now ≥ timestamp` and also treats a future-dated entry
as fresh, as the JS negative difference does. -/
def cacheGet (cache : Cache) (now : ℕ) (routeId : String) : Option MetricsSample :=
  match mapGet cache routeId with
  | some cached => if now - cached.timestamp < cacheTimeout then some cached.data else none
  | none => none

/-- The cache write of probe.js 111–114. -/
def cachePut (cache : Cache) (routeId : String) (sample : MetricsSample) (now : ℕ) : Cache :=
  mapSet cache routeId { data := sample, timestamp := now }

/-- `NetworkProbe.clearCache` (probe.js 356–358). -/
def clearCache : Cache := []

/-- The error sample built by the `catch` arm of `NetworkProbe.analyzeRoute`
(probe.js 120–123): `{ error: error.message, timestamp: new Date() }`; the
numeric fields are left undefined by the code and set to `0` here.  The
backfill is observable exactly when `message = ""`: the error field is then
falsy and `calculateRouteScore` reads the numeric fields, computing `40`
here where the JS computes `NaN` from the undefined fields.  Theorems about
score values of error samples therefore hypothesise a non-empty message
(where the fields are never read and the embedding is exact); the one
statement evaluated at `message = ""` asserts only `≠ 0`, on which the
model and the JS (`NaN`) agree. -/
def probeErrorSample (message : String) (now : ℕ) : MetricsSample :=
  { latency := 0, throughput := 0, stability := 0, packetLoss := 0, jitter := 0
    error := some message, timestamp := now }

/-- `NetworkProbe.analyzeRoute` (probe.js 87–125).  The five measurement
calls of the `try` block are abstracted as one collaborator outcome
`probeResult` (each `measure*` helper already catches its own errors, but a
rejection anywhere in the block lands in the `catch` arm, which returns an
error sample and caches nothing).  Returns the sample handed back to the
caller together with the cache after the call. -/
def analyzeRoute (cache : Cache) (now : ℕ) (route : Route)
    (probeResult : Except String MetricsSample) : MetricsSample × Cache :=
  match cacheGet cache now route.id with
  | some cached => (cached, cache)
  | none =>
    match probeResult with
    | .ok metrics => (metrics, cachePut cache route.id metrics now)
    | .error message => (probeErrorSample message now, cache)

/-! ## Analysis cycle (`HiraishinVPN.analyzeRoutes`, main.js 136–157)

The per-route loop attaches `route.metrics` / `route.lastAnalyzed`
(main.js 139–148), then `this.routes.sort` re-orders the catalog with the
comparator of main.js 151–156.  JS `Array.prototype.sort` is a comparison
sort; it is embedded as an insertion sort driven by the very same
comparator (the spec guarantees nothing about the relative order of
equal-score routes, so any comparison sort is an admissible model). -/

/-- The comparator of main.js 151–156: `0` when either route has no
metrics, otherwise `scoreB - scoreA` (negative ⇒ `a` stays before `b`). -/
def routeCompare (a b : Route) : ℚ :=
  match a.metrics, b.metrics with
  | some ma, some mb => calculateRouteScore mb - calculateRouteScore ma
  | _, _ => 0

/-- Insert `x` into `l` before the first element `y` with
`routeCompare x y ≤ 0` (i.e. the first `y` that `x` need not come after). -/
def sortInsert (x : Route) : List Route → List Route
  | [] => [x]
  | y :: ys => if routeCompare x y ≤ 0 then x :: y :: ys else y :: sortInsert x ys

/-- Insertion sort under the comparator of main.js 151–156. -/
def sortRoutes : List Route → List Route
  | [] => []
  | x :: xs => sortInsert x (sortRoutes xs)

/-- The per-route body of the loop in main.js 139–148: on a normal return
of `probe.analyzeRoute` the sample is attached and `lastAnalyzed` stamped
(main.js 142–143); a rejection is caught and replaced by
`{ error: error.message }` with `lastAnalyzed` untouched (main.js 144–147).
`probe.analyzeRoute` as embedded never rejects — it converts measurement
failures into error samples itself — so the outer `catch` arm is
unreachable in the model, but it is kept for fidelity via the `Except`
wrapper around the call. -/
def attachMetrics (route : Route) (now : ℕ)
    (callResult : Except String MetricsSample) : Route :=
  match callResult with
  | .ok metrics => { route with metrics := some metrics, lastAnalyzed := some now }
  | .error message =>
    { route with metrics := some { latency := 0, throughput := 0, stability := 0
                                   packetLoss := 0, jitter := 0
                                   error := some message, timestamp := now } }

/-- The measurement loop of main.js 139–148, threading the probe's cache
left to right through the catalog. -/
def analyzeLoop (cache : Cache) (now : ℕ)
    (probe : Route → Except String MetricsSample) :
    List Route → List Route × Cache
  | [] => ([], cache)
  | r :: rs =>
    let step := analyzeRoute cache now r (probe r)
    let r' := attachMetrics r now (.ok step.1)
    let rest := analyzeLoop step.2 now probe rs
    (r' :: rest.1, rest.2)

/-- `HiraishinVPN.analyzeRoutes` (main.js 136–157): measure every route,
then sort the catalog by the comparator.  Returns the new catalog and the
probe's cache after the cycle. -/
def analyzeRoutes (cache : Cache) (now : ℕ)
    (probe : Route → Except String MetricsSample) (routes : List Route) :
    List Route × Cache :=
  let looped := analyzeLoop cache now probe routes
  (sortRoutes looped.1, looped.2)

/-- Score of a catalog entry as the comparator sees it (a route with
metrics attached scores by `calculateRouteScore`; every route in a
post-cycle catalog has metrics attached). -/
def routeScore (r : Route) : ℚ :=
  match r.metrics with
  | some m => calculateRouteScore m
  | none => 0

/-! ## Connection lifecycle and scheduler (`HiraishinVPN`, main.js 6–13,
109–134, 170–202)

The mutable fields of the `HiraishinVPN` instance that these methods touch.
`analysisInterval` holds the armed timer (`setInterval` handle plus its
period in milliseconds) or `null`. -/

/-- An armed `setInterval` timer: opaque handle and period. -/
structure Timer where
  handle : ℕ
  periodMs : ℕ
  deriving Repr, DecidableEq

/-- The `HiraishinVPN` constructor state (main.js 7–13), minus the Electron
window handle. -/
structure VPNState where
  isConnected : Bool
  currentRoute : Option Route
  analysisInterval : Option Timer
  routes : List Route
  deriving Repr, DecidableEq

/-- The freshly constructed instance (main.js 7–13):
`isConnected = false`, `currentRoute = null`, `analysisInterval = null`,
`routes = []`. -/
def initialState : VPNState :=
  { isConnected := false, currentRoute := none
    analysisInterval := none, routes := [] }

/-- `HiraishinVPN.startNetworkAnalysis` (main.js 109–126): stores
`probe.discoverRoutes()`'s result in `this.routes`, then arms a
5000 ms `setInterval` whose handle overwrites `this.analysisInterval`
unconditionally — the method performs no check of a previously armed
timer and always resolves (`return true`).  `discovered` is the catalog
the discovery collaborator returned; `handle` the fresh timer handle. -/
def startNetworkAnalysis (st : VPNState) (discovered : List Route)
    (handle : ℕ) : Except String VPNState :=
  .ok { st with routes := discovered
                analysisInterval := some { handle := handle, periodMs := 5000 } }

/-- `HiraishinVPN.stopNetworkAnalysis` (main.js 128–134): clears the timer
when one is stored, otherwise does nothing; never fails. -/
def stopNetworkAnalysis (st : VPNState) : Except String VPNState :=
  match st.analysisInterval with
  | some _ => .ok { st with analysisInterval := none }
  | none => .ok st

/-- `HiraishinVPN.findBestRoute` (main.js 170–177): rejects with
`'Nenhuma rota disponível'` on an empty catalog, otherwise returns the
first (best-ranked) route. -/
def findBestRoute (st : VPNState) : Except String Route :=
  match st.routes with
  | [] => .error "Nenhuma rota disponivel"
  | r :: _ => .ok r

/-- `HiraishinVPN.connectToRoute` (main.js 179–190): awaits
`wgController.connect(route)` (outcome `provisioning`), and only on its
success sets `isConnected = true` and `currentRoute = route`; a rejection
is re-thrown with both fields untouched.  There is no test of
`this.isConnected` before provisioning. -/
def connectToRoute (st : VPNState) (route : Route)
    (provisioning : Except String Unit) : Except String VPNState :=
  match provisioning with
  | .ok _ => .ok { st with isConnected := true, currentRoute := some route }
  | .error e => .error e

/-- `HiraishinVPN.disconnect` (main.js 192–202): awaits
`wgController.disconnect()` (outcome `teardown`), and only on its success
sets `isConnected = false` and `currentRoute = null`; a rejection is
re-thrown with both fields untouched. -/
def disconnect (st : VPNState) (teardown : Except String Unit) :
    Except String VPNState :=
  match teardown with
  | .ok _ => .ok { st with isConnected := false, currentRoute := none }
  | .error e => .error e

/-- One externally triggered operation on the `HiraishinVPN` instance, with
the collaborator outcomes it consumes baked in. -/
inductive Op where
  | connect (route : Route) (provisioning : Except String Unit)
  | disconnect (teardown : Except String Unit)
  | startAnalysis (discovered : List Route) (handle : ℕ)
  | stopAnalysis
  deriving Repr

/-- Run one operation: the surfaced result paired with the state after the
call.  A rejected operation leaves the state it started from (every
mutation in main.js 179–202 happens after the awaited collaborator call has
succeeded). -/
def runOp (st : VPNState) : Op → Except String Unit × VPNState
  | .connect route provisioning =>
    match connectToRoute st route provisioning with
    | .ok st' => (.ok (), st')
    | .error e => (.error e, st)
  | .disconnect teardown =>
    match disconnect st teardown with
    | .ok st' => (.ok (), st')
    | .error e => (.error e, st)
  | .startAnalysis discovered handle =>
    match startNetworkAnalysis st discovered handle with
    | .ok st' => (.ok (), st')
    | .error e => (.error e, st)
  | .stopAnalysis =>
    match stopNetworkAnalysis st with
    | .ok st' => (.ok (), st')
    | .error e => (.error e, st)

/-- The state after a sequence of operations, starting from `st`. -/
def runOps (st : VPNState) : List Op → VPNState
  | [] => st
  | op :: ops => runOps (runOp st op).2 ops

/-! ## Route discovery (`NetworkProbe`, probe.js 16–84, 259–335)

`discoverRoutes` merges three collectors: `si.networkInterfaces()` (awaited
raw inside the outer `try` — its rejection sends the whole function to the
`catch` arm, which returns `[]`), `getWifiNetworks()` and
`getSystemRoutes()` (each absorbs its own failure and resolves with `[]`).
The system-route collector is modelled on its Linux arm
(`ip route show` + `parseLinuxRoutes`); the Windows arm differs only in the
parser. -/

/-- One record of `si.networkInterfaces()` (the fields probe.js 32–45
reads). -/
structure IfaceInfo where
  iface : String
  operstate : String
  kind : String
  ip4 : String
  mac : String
  speed : ℚ
  deriving Repr, DecidableEq

/-- One record of `wifi.scan()` (the fields probe.js 49–61 reads). -/
structure WifiNetwork where
  ssid : String
  signal : ℚ
  security : String
  deriving Repr, DecidableEq

/-- One record of `getSystemRoutes()` (probe.js 303–307, 326–330). -/
structure SysRoute where
  destination : String
  gateway : String
  iface : String
  deriving Repr, DecidableEq

/-- `NetworkProbe.getWifiNetworks` (probe.js 259–269): scans, keeps the
networks with a truthy, non-empty `ssid`, and converts any failure of the
scan into the empty list. -/
def getWifiNetworks (scan : Except String (List WifiNetwork)) : List WifiNetwork :=
  match scan with
  | .ok networks => networks.filter (fun n => n.ssid.length > 0)
  | .error _ => []

/-- JS `String.prototype.includes`: `pat` occurs contiguously in `s`. -/
def jsIncludes (s pat : String) : Bool :=
  (s.toList.tails).any (fun t => pat.toList.isPrefixOf t)

/-- Split a character list at every character satisfying `p` (the
behaviour of JS `String.prototype.split` with a single-character
separator: `n` separators yield `n+1` pieces, empty pieces included). -/
def splitBy (p : Char → Bool) : List Char → List (List Char)
  | [] => [[]]
  | c :: cs =>
    let rest := splitBy p cs
    if p c then [] :: rest
    else
      match rest with
      | [] => [[c]]
      | r :: rs => (c :: r) :: rs

/-- JS `str.trim().split(/\s+/)` restricted to its effect on the
whitespace-separated tokens of the line (the code only indexes into the
resulting array, so only the token list matters). -/
def jsSplitWhitespace (s : String) : List String :=
  ((splitBy (fun c => c.isWhitespace) s.toList).map String.mk).filter
    (fun t => ¬ (t = ""))

/-- `NetworkProbe.parseLinuxRoutes` (probe.js 316–335): every line of
`ip route show` output containing `default` yields a route with the fixed
destination `0.0.0.0/0`, the third token as gateway and the fifth as
interface (an absent token — JS `undefined` — is modelled as `""`). -/
def parseLinuxRoutes (output : String) : List SysRoute :=
  ((splitBy (fun c => c = '\n') output.toList).map String.mk).filterMap (fun line =>
    if jsIncludes line "default" then
      let parts := jsSplitWhitespace line
      some { destination := "0.0.0.0/0"
             gateway := parts.getD 2 ""
             iface := parts.getD 4 "" }
    else none)

/-- `NetworkProbe.getSystemRoutes`, Linux arm (probe.js 272–292): parses
the output of `ip route show` and converts a failure of the command into
the empty list. -/
def getSystemRoutes (exec : Except String String) : List SysRoute :=
  match exec with
  | .ok stdout => parseLinuxRoutes stdout
  | .error _ => []

/-- The route pushed for an up, non-loopback interface (probe.js 34–44). -/
def ifaceRoute (i : IfaceInfo) : Route :=
  { id := i.iface, name := i.iface ++ " (" ++ i.kind ++ ")", kind := i.kind
    ip := some i.ip4, mac := some i.mac, speed := some i.speed
    iface := i.iface }

/-- The route pushed for a visible wireless network (probe.js 50–60). -/
def wifiRoute (n : WifiNetwork) : Route :=
  { id := "wifi-" ++ n.ssid, name := "WiFi: " ++ n.ssid, kind := "wifi"
    ssid := some n.ssid, signal := some n.signal, security := some n.security
    iface := "wlan0" }

/-- The route pushed for a system default route (probe.js 65–74). -/
def sysRoute (r : SysRoute) : Route :=
  { id := "route-" ++ r.destination, name := "Rota: " ++ r.destination
    kind := "route", destination := some r.destination
    gateway := some r.gateway, iface := r.iface }

/-- `NetworkProbe.discoverRoutes` (probe.js 16–84).  The three collector
outcomes are passed in: `ifaceResult` is the raw `si.networkInterfaces()`
promise (unprotected inside the outer `try`, so its rejection makes the
whole function return `[]`), `wifiScan` feeds `getWifiNetworks`, and
`routeExec` feeds `getSystemRoutes`; nothing after those awaits can throw,
so the function never rejects. -/
def discoverRoutes (ifaceResult : Except String (List IfaceInfo))
    (wifiScan : Except String (List WifiNetwork))
    (routeExec : Except String String) : List Route :=
  match ifaceResult with
  | .error _ => []
  | .ok interfaces =>
    ((interfaces.filter (fun i => i.operstate = "up" ∧ ¬ (i.kind = "loopback"))).map ifaceRoute)
      ++ ((getWifiNetworks wifiScan).map wifiRoute)
      ++ ((getSystemRoutes routeExec).map sysRoute)

/-! ## Theorems -/

/-- C1: For every metrics sample whose error field is not set, the score
equals `0.4*max(0, 100 - latencyMs) + 0.4*min(100, throughputMbps/10) +
0.2*(stability*100)` and lies in `[0,100]` (with the numeric fields in the
ranges the data model gives them); in particular a sample with
latency = 10, throughput = 500, stability = 0.95 scores 75.0 and one with
latency = 200, throughput = 5, stability = 0.2 scores 4.2. -/
theorem c1_score_formula_and_bounds (m : MetricsSample)
    (herr : m.error = none)
    (hlat : 0 ≤ m.latency) (hthr : 0 ≤ m.throughput)
    (hst0 : 0 ≤ m.stability) (hst1 : m.stability ≤ 1) :
    (calculateRouteScore m
        = 0.4 * max 0 (100 - m.latency) + 0.4 * min 100 (m.throughput / 10)
          + 0.2 * (m.stability * 100)
      ∧ 0 ≤ calculateRouteScore m ∧ calculateRouteScore m ≤ 100)
    ∧ calculateRouteScore sampleA = 75
    ∧ calculateRouteScore sampleB = 4.2 := by
  have hA : calculateRouteScore sampleA = 75 := by
    norm_num [calculateRouteScore, sampleA, errTruthy]
  have hB : calculateRouteScore sampleB = 4.2 := by
    norm_num [calculateRouteScore, sampleB, errTruthy]
  have hscore : calculateRouteScore m
      = max 0 (100 - m.latency) * 0.4 + min 100 (m.throughput / 10) * 0.4
        + m.stability * 100 * 0.2 := by
    simp [calculateRouteScore, herr, errTruthy]
  have hl0 : (0 : ℚ) ≤ max 0 (100 - m.latency) := le_max_left 0 _
  have hl1 : max 0 (100 - m.latency) ≤ 100 :=
    max_le (by norm_num) (by linarith)
  have ht0 : (0 : ℚ) ≤ min 100 (m.throughput / 10) :=
    le_min (by norm_num) (by positivity)
  have ht1 : min 100 (m.throughput / 10) ≤ 100 := min_le_left _ _
  refine ⟨⟨by rw [hscore]; ring, ?_, ?_⟩, hA, hB⟩
  · rw [hscore]; nlinarith
  · rw [hscore]; nlinarith

/-- Witness for C1 at the spec's two end-to-end samples. -/
theorem c1_score_witness :
    calculateRouteScore sampleA = 75 ∧ calculateRouteScore sampleB = 4.2
    ∧ 0 ≤ calculateRouteScore sampleA ∧ calculateRouteScore sampleA ≤ 100 := by
  have h := c1_score_formula_and_bounds sampleA (by rfl)
    (by norm_num [sampleA]) (by norm_num [sampleA])
    (by norm_num [sampleA]) (by norm_num [sampleA])
  exact ⟨h.2.1, h.2.2, h.1.2.1, h.1.2.2⟩

/-- A sample whose `error` field is set to the empty string, with the
numeric fields of the spec's RouteA sample. -/
def emptyErrorSample : MetricsSample :=
  { latency := 10, throughput := 500, stability := 0.95
    packetLoss := 0, jitter := 0, error := some "", timestamp := 0 }

/-- C7 counterexample: the claim quantifies over all error strings
including `""`, but `if (metrics.error)` treats the empty string as falsy,
so a sample carrying `error = ""` is scored by the regular formula — here
75, not 0. -/
theorem c7_counterexample :
    emptyErrorSample.error = some ""
    ∧ calculateRouteScore emptyErrorSample = 75
    ∧ calculateRouteScore emptyErrorSample ≠ 0 := by
  refine ⟨rfl, ?_, ?_⟩
  · norm_num [calculateRouteScore, emptyErrorSample, errTruthy]
  · norm_num [calculateRouteScore, emptyErrorSample, errTruthy]

/-- C7 amended: for every metrics sample whose error field is set to a
non-empty string, the score is 0 with no partial credit. -/
theorem c7_error_score_zero (m : MetricsSample) (s : String)
    (herr : m.error = some s) (hs : s ≠ "") :
    calculateRouteScore m = 0 := by
  simp [calculateRouteScore, herr, errTruthy, hs]

/-- Witness for the amended C7 at the error sample the probe's catch arm
builds for message `"x"`. -/
theorem c7_error_witness : calculateRouteScore (probeErrorSample "x" 0) = 0 :=
  c7_error_score_zero (probeErrorSample "x" 0) "x" rfl (by decide)

/-- A connected instance: `isConnected = true` with an active route. -/
def connectedState : VPNState :=
  { isConnected := true
    currentRoute := some (ifaceRoute
      { iface := "eth0", operstate := "up", kind := "wired"
        ip4 := "192.168.0.2", mac := "aa:bb", speed := 1000 })
    analysisInterval := none, routes := [] }

/-- The route a second `connect` is issued for. -/
def secondRoute : Route := wifiRoute { ssid := "CafeWifi", signal := 40, security := "wpa2" }

/-- C5 counterexample: `connectToRoute` performs no `isConnected` check, so
a `connect` issued while already connected does not fail with
`AlreadyConnected` — with a successful provisioning collaborator it
resolves and silently replaces the active route. -/
theorem c5_counterexample :
    connectedState.isConnected = true
    ∧ connectToRoute connectedState secondRoute (.ok ())
        = .ok { connectedState with isConnected := true, currentRoute := some secondRoute }
    ∧ { connectedState with isConnected := true, currentRoute := some secondRoute }
        ≠ connectedState := by
  refine ⟨rfl, rfl, fun h => ?_⟩
  have hid := congrArg (fun st => (st.currentRoute.map Route.id).getD "") h
  simp [connectedState, secondRoute, wifiRoute, ifaceRoute] at hid

/-- C5 amended: `connect()` while `Connected` is not rejected: when
provisioning succeeds it resolves and replaces the connection flag and
active route with the new route (last-write-wins, the prior tunnel is not
torn down first); only a provisioning failure makes it fail, and then the
flag and the active route are left unchanged (the error is the
collaborator's, not `AlreadyConnected`). -/
theorem c5_connect_replaces (st : VPNState) (route : Route)
    (hconn : st.isConnected = true) :
    connectToRoute st route (.ok ())
        = .ok { st with isConnected := true, currentRoute := some route }
    ∧ ∀ e, connectToRoute st route (.error e) = .error e :=
  ⟨rfl, fun _ => rfl⟩

/-- Witness for the amended C5 at the concrete connected instance. -/
theorem c5_connect_witness :
    connectToRoute connectedState secondRoute (.ok ())
        = .ok { connectedState with isConnected := true, currentRoute := some secondRoute }
    ∧ connectToRoute connectedState secondRoute (.error "fail") = .error "fail" := by
  have h := c5_connect_replaces connectedState secondRoute rfl
  exact ⟨h.1, h.2 "fail"⟩

/-- An instance whose analysis loop is already active. -/
def runningState : VPNState :=
  { isConnected := false, currentRoute := none
    analysisInterval := some { handle := 1, periodMs := 5000 }, routes := [] }

/-- C6 counterexample: `startNetworkAnalysis` performs no check of
`this.analysisInterval`, so calling it while the loop is already active
does not fail with `AlreadyRunning` — it resolves and overwrites the stored
timer handle (the state changes). -/
theorem c6_counterexample :
    runningState.analysisInterval ≠ none
    ∧ startNetworkAnalysis runningState [] 2
        = .ok { runningState with
                  analysisInterval := some { handle := 2, periodMs := 5000 } }
    ∧ { runningState with analysisInterval := some { handle := 2, periodMs := 5000 } }
        ≠ runningState := by
  refine ⟨by simp [runningState], rfl, fun h => ?_⟩
  have hh := congrArg (fun st => (st.analysisInterval.map Timer.handle).getD 0) h
  simp [runningState] at hh

/-- C6 amended: `start()` never fails (there is no `AlreadyRunning` check):
whether or not a loop is already active it stores the result of the
immediate `discoverRoutes()` call in the catalog and arms a fresh 5000 ms
periodic trigger whose handle overwrites the stored one (a previously
armed timer is not cleared — its handle is merely forgotten). -/
theorem c6_start_always_rearms (st : VPNState) (discovered : List Route)
    (handle : ℕ) :
    startNetworkAnalysis st discovered handle
      = .ok { st with routes := discovered
                      analysisInterval := some { handle := handle, periodMs := 5000 } } :=
  rfl

/-- A `Map.set` binds its key: reading the key just written yields exactly
the entry written, whatever was bound before. -/
theorem mapGet_mapSet_self (cache : Cache) (key : String) (entry : CacheEntry) :
    mapGet (mapSet cache key entry) key = some entry := by
  simp [mapGet, mapSet, List.find?]

/-- C3: the cache round-trip of `NetworkProbe.analyzeRoute`
(probe.js 87–125).  After `put(id, s)` at time `tPut`: a read at a time
less than 30000 ms later is a hit returning exactly `s` (and
`analyzeRoute` serves it without touching the probe or the cache); a read
at least 30000 ms later is a miss, and `analyzeRoute` then re-measures,
returning the fresh sample and writing it back; a read of an id with no
entry is likewise a miss that triggers re-measurement; and a write always
replaces the prior entry for its key. -/
theorem c3_cache_contract (cache : Cache) (route : Route)
    (s : MetricsSample) (tPut now : ℕ)
    (probeResult : Except String MetricsSample) :
    (now - tPut < cacheTimeout →
      cacheGet (cachePut cache route.id s tPut) now route.id = some s
      ∧ analyzeRoute (cachePut cache route.id s tPut) now route probeResult
          = (s, cachePut cache route.id s tPut))
    ∧ (cacheTimeout ≤ now - tPut →
      cacheGet (cachePut cache route.id s tPut) now route.id = none
      ∧ ∀ m, probeResult = .ok m →
          analyzeRoute (cachePut cache route.id s tPut) now route probeResult
            = (m, cachePut (cachePut cache route.id s tPut) route.id m now))
    ∧ (mapGet cache route.id = none →
      cacheGet cache now route.id = none
      ∧ ∀ m, probeResult = .ok m →
          analyzeRoute cache now route probeResult = (m, cachePut cache route.id m now))
    ∧ mapGet (cachePut cache route.id s tPut) route.id
        = some { data := s, timestamp := tPut } := by
  have hself : mapGet (cachePut cache route.id s tPut) route.id
      = some { data := s, timestamp := tPut } :=
    mapGet_mapSet_self cache route.id { data := s, timestamp := tPut }
  refine ⟨fun hfresh => ?_, fun hstale => ?_, fun hnone => ?_, hself⟩
  · have hget : cacheGet (cachePut cache route.id s tPut) now route.id = some s := by
      simp [cacheGet, hself, hfresh]
    exact ⟨hget, by simp [analyzeRoute, hget]⟩
  · have hget : cacheGet (cachePut cache route.id s tPut) now route.id = none := by
      simp [cacheGet, hself, Nat.not_lt.mpr hstale]
    refine ⟨hget, fun m hm => ?_⟩
    simp [analyzeRoute, hget, hm]
  · have hget : cacheGet cache now route.id = none := by
      simp [cacheGet, hnone]
    refine ⟨hget, fun m hm => ?_⟩
    simp [analyzeRoute, hget, hm]

/-- Witness for C3: a put at time 100 is served back at time 200, expired
at time 30100, and the write has replaced the entry. -/
theorem c3_cache_witness :
    cacheGet (cachePut [] "eth0" sampleA 100) 200 "eth0" = some sampleA
    ∧ cacheGet (cachePut [] "eth0" sampleA 100) 30100 "eth0" = none
    ∧ mapGet (cachePut [] "eth0" sampleA 100) "eth0"
        = some { data := sampleA, timestamp := 100 } := by
  have h1 := c3_cache_contract [] { id := "eth0", name := "eth0", kind := "wired", iface := "eth0" }
    sampleA 100 200 (.error "unused")
  have h2 := c3_cache_contract [] { id := "eth0", name := "eth0", kind := "wired", iface := "eth0" }
    sampleA 100 30100 (.error "unused")
  exact ⟨(h1.1 (by decide)).1, (h2.2.1 (by decide)).1, h1.2.2.2⟩

/-- Membership in an insertion is membership in the inserted element or the
original list. -/
theorem mem_sortInsert (x z : Route) :
    ∀ l : List Route, z ∈ sortInsert x l ↔ z = x ∨ z ∈ l
  | [] => by simp [sortInsert]
  | y :: ys => by
    by_cases hc : routeCompare x y ≤ 0
    · simp [sortInsert, hc]
    · simp only [sortInsert, if_neg hc, List.mem_cons, mem_sortInsert x z ys]
      tauto

/-- `sortInsert` produces a permutation of consing the element on. -/
theorem sortInsert_perm (x : Route) :
    ∀ l : List Route, List.Perm (sortInsert x l) (x :: l)
  | [] => List.Perm.refl _
  | y :: ys => by
    by_cases hc : routeCompare x y ≤ 0
    · simp [sortInsert, hc]
    · simp only [sortInsert, if_neg hc]
      exact ((sortInsert_perm x ys).cons y).trans (List.Perm.swap x y ys)

/-- `sortRoutes` permutes the catalog. -/
theorem sortRoutes_perm : ∀ l : List Route, List.Perm (sortRoutes l) l
  | [] => List.Perm.refl _
  | x :: xs => (sortInsert_perm x (sortRoutes xs)).trans ((sortRoutes_perm xs).cons x)

/-- On routes that both carry metrics, the comparator of main.js 151–156 is
non-positive exactly when the second route's score does not exceed the
first's. -/
theorem routeCompare_nonpos {a b : Route}
    (ha : a.metrics.isSome) (hb : b.metrics.isSome) :
    routeCompare a b ≤ 0 ↔ routeScore b ≤ routeScore a := by
  obtain ⟨ma, hma⟩ := Option.isSome_iff_exists.mp ha
  obtain ⟨mb, hmb⟩ := Option.isSome_iff_exists.mp hb
  simp [routeCompare, routeScore, hma, hmb, sub_nonpos]

/-- The ordering the sorted catalog satisfies: each route's score is at
least every later route's score. -/
def ScoreDesc (a b : Route) : Prop := routeScore b ≤ routeScore a

/-- Inserting into a score-sorted list of metric-carrying routes keeps it
score-sorted. -/
theorem sortInsert_pairwise (x : Route) (hx : x.metrics.isSome) :
    ∀ l : List Route, (∀ r ∈ l, r.metrics.isSome) →
      l.Pairwise ScoreDesc → (sortInsert x l).Pairwise ScoreDesc
  | [], _, _ => by simp [sortInsert, List.pairwise_singleton]
  | y :: ys, hl, hp => by
    have hy : y.metrics.isSome := hl y (List.mem_cons_self y ys)
    have hys : ∀ r ∈ ys, r.metrics.isSome :=
      fun r hr => hl r (List.mem_cons_of_mem y hr)
    have hpy := List.pairwise_cons.mp hp
    by_cases hc : routeCompare x y ≤ 0
    · have hxy : routeScore y ≤ routeScore x := (routeCompare_nonpos hx hy).mp hc
      rw [sortInsert, if_pos hc]
      refine List.pairwise_cons.mpr ⟨fun z hz => ?_, hp⟩
      rcases List.mem_cons.mp hz with rfl | hz
      · exact hxy
      · exact le_trans (hpy.1 z hz) hxy
    · have hyx : routeScore x < routeScore y :=
        lt_of_not_le (fun hle => hc ((routeCompare_nonpos hx hy).mpr hle))
      rw [sortInsert, if_neg hc]
      refine List.pairwise_cons.mpr ⟨fun z hz => ?_, ?_⟩
      · rcases (mem_sortInsert x z ys).mp hz with rfl | hz
        · exact le_of_lt hyx
        · exact hpy.1 z hz
      · exact sortInsert_pairwise x hx ys hys hpy.2

/-- Sorting a catalog of metric-carrying routes with the comparator of
main.js 151–156 yields a catalog sorted by non-increasing score. -/
theorem sortRoutes_pairwise :
    ∀ l : List Route, (∀ r ∈ l, r.metrics.isSome) →
      (sortRoutes l).Pairwise ScoreDesc
  | [], _ => List.Pairwise.nil
  | x :: xs, hl => by
    have hx : x.metrics.isSome := hl x (List.mem_cons_self x xs)
    have hxs : ∀ r ∈ xs, r.metrics.isSome :=
      fun r hr => hl r (List.mem_cons_of_mem x hr)
    refine sortInsert_pairwise x hx (sortRoutes xs) (fun r hr => ?_)
      (sortRoutes_pairwise xs hxs)
    exact hxs r ((sortRoutes_perm xs).mem_iff.mp hr)

/-- Every route the measurement loop hands to the sort carries metrics
(main.js 142 and 146 both assign `route.metrics`). -/
theorem analyzeLoop_allSome (now : ℕ) (probe : Route → Except String MetricsSample) :
    ∀ (rs : List Route) (cache : Cache),
      ∀ r' ∈ (analyzeLoop cache now probe rs).1, r'.metrics.isSome
  | [], _ => by simp [analyzeLoop]
  | r :: rs, cache => by
    intro r' hr'
    rcases List.mem_cons.mp hr' with rfl | hmem
    · rfl
    · exact analyzeLoop_allSome now probe rs (analyzeRoute cache now r (probe r)).2 r' hmem

/-- A successful `Map.get` returns an entry of the map. -/
theorem mem_of_mapGet_some {cache : Cache} {k : String} {ent : CacheEntry}
    (h : mapGet cache k = some ent) : (k, ent) ∈ cache := by
  unfold mapGet at h
  rcases hf : List.find? (fun p => p.1 = k) cache with _ | p
  · rw [hf] at h; cases h
  · rw [hf] at h
    have hp := List.mem_of_find?_eq_some hf
    have hpk : p.1 = k := by simpa using List.find?_some hf
    have hpe : p.2 = ent := by simpa using h
    rcases p with ⟨a, b⟩
    cases hpk
    cases hpe
    exact hp

/-- A cache hit serves the `data` field of a stored entry. -/
theorem cacheGet_some {cache : Cache} {now : ℕ} {k : String} {d : MetricsSample}
    (h : cacheGet cache now k = some d) :
    ∃ ent, mapGet cache k = some ent ∧ ent.data = d := by
  unfold cacheGet at h
  rcases hm : mapGet cache k with _ | ent
  · rw [hm] at h; cases h
  · rw [hm] at h
    by_cases hf : now - ent.timestamp < cacheTimeout
    · simp [hf] at h
      exact ⟨ent, rfl, h⟩
    · simp [hf] at h

/-- If every probe failure in a cycle carries a non-empty message, every
success sample carries no error field (probe.js 101–108 never sets one),
and the starting cache stores only error-free samples (the cache write at
probe.js 111–114 sits on the success path), then every error-carrying
sample the measurement loop attaches scores 0. -/
theorem analyzeLoop_error_scores_zero (now : ℕ)
    (probe : Route → Except String MetricsSample)
    (hprobe : ∀ r e, probe r = .error e → ¬ e = "")
    (hok : ∀ r m, probe r = .ok m → m.error = none) :
    ∀ (rs : List Route) (cache : Cache),
      (∀ p ∈ cache, p.2.data.error = none) →
      ∀ r' ∈ (analyzeLoop cache now probe rs).1, ∀ m, r'.metrics = some m →
        m.error.isSome → calculateRouteScore m = 0
  | [], _, _ => by simp [analyzeLoop]
  | r :: rs, cache, hcache => by
    intro r' hr' m hm herr
    rcases List.mem_cons.mp hr' with rfl | hmem
    · have hm' : (analyzeRoute cache now r (probe r)).1 = m := by
        simpa [attachMetrics] using hm
      rcases hcg : cacheGet cache now r.id with _ | cached
      · rcases hp : probe r with e | m0
        · have hsample : (analyzeRoute cache now r (probe r)).1
              = probeErrorSample e now := by
            simp [analyzeRoute, hcg, hp]
          have he := hprobe r e hp
          rw [← hm', hsample]
          simp [calculateRouteScore, probeErrorSample, errTruthy, he]
        · exfalso
          have hsample : (analyzeRoute cache now r (probe r)).1 = m0 := by
            simp [analyzeRoute, hcg, hp]
          have : m.error = none := by rw [← hm', hsample]; exact hok r m0 hp
          rw [this] at herr; cases herr
      · exfalso
        have hsample : (analyzeRoute cache now r (probe r)).1 = cached := by
          simp [analyzeRoute, hcg]
        obtain ⟨ent, hent, hdata⟩ := cacheGet_some hcg
        have : m.error = none := by
          rw [← hm', hsample, ← hdata]
          exact hcache (r.id, ent) (mem_of_mapGet_some hent)
        rw [this] at herr; cases herr
    · refine analyzeLoop_error_scores_zero now probe hprobe hok rs
        (analyzeRoute cache now r (probe r)).2 ?_ r' hmem m hm herr
      intro p hp
      rcases hcg : cacheGet cache now r.id with _ | cached
      · rcases hp2 : probe r with e | m0
        · have hc2 : (analyzeRoute cache now r (probe r)).2 = cache := by
            simp [analyzeRoute, hcg, hp2]
          rw [hc2] at hp
          exact hcache p hp
        · have hc2 : (analyzeRoute cache now r (probe r)).2
              = cachePut cache r.id m0 now := by
            simp [analyzeRoute, hcg, hp2]
          rw [hc2] at hp
          rcases List.mem_cons.mp hp with rfl | hp
          · exact hok r m0 hp2
          · exact hcache p (List.mem_filter.mp hp).1
      · have hc2 : (analyzeRoute cache now r (probe r)).2 = cache := by
          simp [analyzeRoute, hcg]
        rw [hc2] at hp
        exact hcache p hp

/-- C2 amended: in every analysis cycle whose probe failures all carry a
non-empty message — success samples and cache entries carrying no error
field, as the code builds them — the catalog is ordered by non-increasing
score (every adjacent pair `(r[i], r[i+1])` satisfies
`score(r[i].metrics) ≥ score(r[i+1].metrics)`), the first route's score is
maximal over the whole catalog, and every route whose sample carries an
error scores 0.  (A probe failure with an empty message does not sort as
score 0 — `metrics.error` is falsy for `""` and the score is computed from
numeric fields the error path leaves undefined, the truthiness slip of the
C7 correction.) -/
theorem c2_ranking_desc (cache : Cache) (now : ℕ)
    (probe : Route → Except String MetricsSample) (routes : List Route)
    (hprobe : ∀ r e, probe r = .error e → ¬ e = "")
    (hok : ∀ r m, probe r = .ok m → m.error = none)
    (hcache : ∀ p ∈ cache, p.2.data.error = none) :
    List.Chain' ScoreDesc (analyzeRoutes cache now probe routes).1
    ∧ (∀ best, (analyzeRoutes cache now probe routes).1.head? = some best →
        ∀ r ∈ (analyzeRoutes cache now probe routes).1, routeScore r ≤ routeScore best)
    ∧ (∀ r ∈ (analyzeRoutes cache now probe routes).1, ∀ m, r.metrics = some m →
        m.error.isSome → calculateRouteScore m = 0) := by
  have hall : ∀ r' ∈ (analyzeLoop cache now probe routes).1, r'.metrics.isSome :=
    analyzeLoop_allSome now probe routes cache
  have hpair : (analyzeRoutes cache now probe routes).1.Pairwise ScoreDesc :=
    sortRoutes_pairwise _ hall
  refine ⟨hpair.chain', fun best hbest r hr => ?_, fun r hr m hm herr => ?_⟩
  · rcases hres : (analyzeRoutes cache now probe routes).1 with _ | ⟨b, rest⟩
    · rw [hres] at hbest; cases hbest
    · rw [hres] at hbest hr hpair
      cases hbest
      rcases List.mem_cons.mp hr with rfl | hr
      · exact le_refl _
      · exact (List.pairwise_cons.mp hpair).1 r hr
  · have hrloop : r ∈ (analyzeLoop cache now probe routes).1 :=
      (sortRoutes_perm _).mem_iff.mp (by rw [analyzeRoutes] at hr; exact hr)
    exact analyzeLoop_error_scores_zero now probe hprobe hok routes cache
      hcache r hrloop m hm herr

/-- The outcome `NetworkProbe.analyzeRoute` hands back on a cache miss:
the measured sample on success, the catch arm's error sample on failure. -/
def freshSample (now : ℕ) : Except String MetricsSample → MetricsSample
  | .ok m => m
  | .error e => probeErrorSample e now

/-- Writing one key does not create entries for other keys. -/
theorem mapGet_mapSet_none {cache : Cache} {k k' : String}
    (entry : CacheEntry) (hk : ¬ k' = k) (h : mapGet cache k' = none) :
    mapGet (mapSet cache k entry) k' = none := by
  have h' : ∀ (a : String) (b : CacheEntry), (a, b) ∈ cache → ¬ a = k' := by
    simpa [mapGet, Option.map_eq_none, List.find?_eq_none] using h
  simp [mapGet, mapSet, List.find?_eq_none]
  exact ⟨fun hkk => hk hkk.symm, fun a b hab _ => h' a b hab⟩

/-- Over a catalog of distinct ids with no unexpired cache entries, the
measurement loop gives every route exactly the sample its own probe call
produced — no route's outcome leaks into another's. -/
theorem analyzeLoop_fresh (now : ℕ) (probe : Route → Except String MetricsSample) :
    ∀ (rs : List Route) (cache : Cache),
      (∀ r ∈ rs, mapGet cache r.id = none) → (rs.map Route.id).Nodup →
      (analyzeLoop cache now probe rs).1
        = rs.map (fun r => attachMetrics r now (.ok (freshSample now (probe r))))
  | [], _, _, _ => rfl
  | r :: rs, cache, hc, hnd => by
    have hr : mapGet cache r.id = none := hc r (List.mem_cons_self r rs)
    have hget : cacheGet cache now r.id = none := by simp [cacheGet, hr]
    have hnd' : (∀ x ∈ rs, ¬ x.id = r.id) ∧ (rs.map Route.id).Nodup := by
      simpa using hnd
    rcases hp : probe r with e | m
    · have htail : (analyzeLoop cache now probe rs).1
          = rs.map (fun r => attachMetrics r now (.ok (freshSample now (probe r)))) :=
        analyzeLoop_fresh now probe rs cache
          (fun r' hr' => hc r' (List.mem_cons_of_mem r hr')) hnd'.2
      simp [analyzeLoop, analyzeRoute, hget, hp, freshSample, htail]
    · have htail : (analyzeLoop (mapSet cache r.id { data := m, timestamp := now })
            now probe rs).1
          = rs.map (fun r => attachMetrics r now (.ok (freshSample now (probe r)))) := by
        refine analyzeLoop_fresh now probe rs _ (fun r' hr' => ?_) hnd'.2
        exact mapGet_mapSet_none _ (hnd'.1 r' hr') (hc r' (List.mem_cons_of_mem r hr'))
      simp [analyzeLoop, analyzeRoute, hget, hp, freshSample, cachePut, htail]

/-- C4: within one analysis cycle over a catalog of distinct route ids
(started with an empty cache, so every route is freshly measured), a route
whose probe raises receives exactly the error sample built from its
message, every route whose probe succeeds receives its measured sample, and
the cycle completes with a catalog of the same size — one route's failure
never aborts the cycle for other routes. -/
theorem c4_partial_failure_isolation (now : ℕ)
    (probe : Route → Except String MetricsSample) (routes : List Route)
    (hids : (routes.map Route.id).Nodup) :
    (analyzeRoutes [] now probe routes).1.length = routes.length
    ∧ (∀ r ∈ routes, ∀ e, probe r = .error e →
        { r with metrics := some (probeErrorSample e now), lastAnalyzed := some now }
          ∈ (analyzeRoutes [] now probe routes).1)
    ∧ (∀ r ∈ routes, ∀ m, probe r = .ok m →
        { r with metrics := some m, lastAnalyzed := some now }
          ∈ (analyzeRoutes [] now probe routes).1) := by
  have hloop : (analyzeLoop ([] : Cache) now probe routes).1
      = routes.map (fun r => attachMetrics r now (.ok (freshSample now (probe r)))) :=
    analyzeLoop_fresh now probe routes [] (fun r _ => rfl) hids
  have hperm : List.Perm (analyzeRoutes [] now probe routes).1
      (routes.map (fun r => attachMetrics r now (.ok (freshSample now (probe r))))) := by
    rw [analyzeRoutes]
    exact hloop ▸ sortRoutes_perm _
  refine ⟨by rw [hperm.length_eq, List.length_map], fun r hr e hp => ?_, fun r hr m hp => ?_⟩
  · have : attachMetrics r now (.ok (freshSample now (probe r)))
        ∈ routes.map (fun r => attachMetrics r now (.ok (freshSample now (probe r)))) :=
      List.mem_map_of_mem _ hr
    rw [hp] at this
    simpa [attachMetrics, freshSample] using hperm.mem_iff.mpr this
  · have : attachMetrics r now (.ok (freshSample now (probe r)))
        ∈ routes.map (fun r => attachMetrics r now (.ok (freshSample now (probe r)))) :=
      List.mem_map_of_mem _ hr
    rw [hp] at this
    simpa [attachMetrics, freshSample] using hperm.mem_iff.mpr this

/-- A bare discovered route, as `discoverRoutes` would catalog `eth0`. -/
def witnessRoute : Route :=
  { id := "eth0", name := "eth0 (wired)", kind := "wired", iface := "eth0" }

/-- A probe collaborator that always measures the spec's RouteA sample. -/
def witnessProbe : Route → Except String MetricsSample := fun _ => .ok sampleA

/-- A probe whose failure carries the empty message. -/
def emptyMsgProbe : Route → Except String MetricsSample := fun _ => .error ""

/-- C2 counterexample: a cycle in which the probe fails with the empty
message leaves the catalog's only route carrying an error sample whose
score is not 0 — `if (metrics.error)` is falsy for `""`, so the route does
not sort as score 0 (the program computes the formula over the undefined
numeric fields, `NaN`; the model and the program agree the score is not 0). -/
theorem c2_counterexample :
    (analyzeRoutes [] 3 emptyMsgProbe [witnessRoute]).1
      = [{ witnessRoute with metrics := some (probeErrorSample "" 3)
                             lastAnalyzed := some 3 }]
    ∧ (probeErrorSample "" 3).error = some ""
    ∧ routeScore { witnessRoute with metrics := some (probeErrorSample "" 3)
                                     lastAnalyzed := some 3 } ≠ 0 := by
  refine ⟨rfl, rfl, ?_⟩
  norm_num [routeScore, calculateRouteScore, probeErrorSample, errTruthy]

/-- Witness for the amended C2 on a concrete one-route cycle. -/
theorem c2_ranking_witness :
    (analyzeRoutes [] 0 witnessProbe [witnessRoute]).1.head?
        = some { witnessRoute with metrics := some sampleA, lastAnalyzed := some 0 }
    ∧ ∀ r ∈ (analyzeRoutes [] 0 witnessProbe [witnessRoute]).1,
        routeScore r
          ≤ routeScore { witnessRoute with metrics := some sampleA, lastAnalyzed := some 0 } := by
  have hhead : (analyzeRoutes [] 0 witnessProbe [witnessRoute]).1.head?
      = some { witnessRoute with metrics := some sampleA, lastAnalyzed := some 0 } := rfl
  have h := c2_ranking_desc [] 0 witnessProbe [witnessRoute]
    (fun r e he => Except.noConfusion he)
    (fun r m hm => by cases hm; rfl)
    (fun p hp => absurd hp (List.not_mem_nil p))
  exact ⟨hhead, h.2.1 _ hhead⟩

/-- Discovered routes `a`, `b`, `c` for the isolation scenario. -/
def routeA4 : Route := { id := "a", name := "A", kind := "wired", iface := "a" }

/-- Second route of the isolation scenario. -/
def routeB4 : Route := { id := "b", name := "B", kind := "wired", iface := "b" }

/-- Third route of the isolation scenario. -/
def routeC4 : Route := { id := "c", name := "C", kind := "wired", iface := "c" }

/-- A probe collaborator that raises exactly on route `b`. -/
def isolationProbe : Route → Except String MetricsSample := fun r =>
  if r.id = "b" then .error "probe failed" else .ok sampleA

/-- Witness for C4: in a cycle over `[a, b, c]` where probing `b` raises,
`a` and `c` receive their measured samples, `b` receives the error sample,
and the resulting catalog still has three routes. -/
theorem c4_isolation_witness :
    (analyzeRoutes [] 7 isolationProbe [routeA4, routeB4, routeC4]).1.length = 3
    ∧ { routeB4 with metrics := some (probeErrorSample "probe failed" 7)
                     lastAnalyzed := some 7 }
        ∈ (analyzeRoutes [] 7 isolationProbe [routeA4, routeB4, routeC4]).1
    ∧ { routeA4 with metrics := some sampleA, lastAnalyzed := some 7 }
        ∈ (analyzeRoutes [] 7 isolationProbe [routeA4, routeB4, routeC4]).1
    ∧ { routeC4 with metrics := some sampleA, lastAnalyzed := some 7 }
        ∈ (analyzeRoutes [] 7 isolationProbe [routeA4, routeB4, routeC4]).1 := by
  have h := c4_partial_failure_isolation 7 isolationProbe [routeA4, routeB4, routeC4]
    (by decide)
  refine ⟨h.1, ?_, ?_, ?_⟩
  · exact h.2.1 routeB4 (by decide) "probe failed" rfl
  · exact h.2.2 routeA4 (by decide) sampleA rfl
  · exact h.2.2 routeC4 (by decide) sampleA rfl

/-- The connection-flag/active-route coupling of the lifecycle manager. -/
def stateInv (st : VPNState) : Prop :=
  st.isConnected = st.currentRoute.isSome

/-- Every single operation preserves the coupling of `isConnected` and
`currentRoute`. -/
theorem runOp_preserves_inv (st : VPNState) (op : Op) (h : stateInv st) :
    stateInv (runOp st op).2 := by
  cases op with
  | connect route provisioning =>
    cases provisioning with
    | ok _ => simp [runOp, connectToRoute, stateInv]
    | error e => simpa [runOp, connectToRoute, stateInv] using h
  | disconnect teardown =>
    cases teardown with
    | ok _ => simp [runOp, disconnect, stateInv]
    | error e => simpa [runOp, disconnect, stateInv] using h
  | startAnalysis discovered handle =>
    simpa [runOp, startNetworkAnalysis, stateInv] using h
  | stopAnalysis =>
    cases hai : st.analysisInterval <;>
      simpa [runOp, stopNetworkAnalysis, hai, stateInv] using h

/-- C10: starting from the constructor state, after every sequence of
operations — connects and disconnects with succeeding or failing
collaborators, starting or stopping the analysis loop — `isConnected`
holds exactly when `currentRoute` is non-null; and an operation that fails
leaves the entire state (in particular both fields) exactly as it was. -/
theorem c10_connection_invariant :
    (∀ ops : List Op, stateInv (runOps initialState ops))
    ∧ (∀ (st : VPNState) (op : Op) (e : String),
        (runOp st op).1 = .error e → (runOp st op).2 = st) := by
  constructor
  · have key : ∀ (ops : List Op) (st : VPNState), stateInv st → stateInv (runOps st ops) := by
      intro ops
      induction ops with
      | nil => intro st h; exact h
      | cons op ops ih => intro st h; exact ih _ (runOp_preserves_inv st op h)
    intro ops
    exact key ops initialState rfl
  · intro st op e herr
    cases op with
    | connect route provisioning =>
      cases provisioning with
      | ok _ => simp [runOp, connectToRoute] at herr
      | error _ => simp [runOp, connectToRoute]
    | disconnect teardown =>
      cases teardown with
      | ok _ => simp [runOp, disconnect] at herr
      | error _ => simp [runOp, disconnect]
    | startAnalysis discovered handle =>
      simp [runOp, startNetworkAnalysis] at herr
    | stopAnalysis =>
      cases hai : st.analysisInterval <;>
        simp [runOp, stopNetworkAnalysis, hai] at herr

/-- Witness for C10: a successful connect followed by a failed disconnect —
the invariant holds afterwards and the failed disconnect changed nothing. -/
theorem c10_invariant_witness :
    stateInv (runOps initialState
      [Op.connect secondRoute (.ok ()), Op.disconnect (.error "teardown failed")])
    ∧ (runOp (runOps initialState [Op.connect secondRoute (.ok ())])
        (Op.disconnect (.error "teardown failed"))).2
      = runOps initialState [Op.connect secondRoute (.ok ())] := by
  exact ⟨c10_connection_invariant.1 _,
    c10_connection_invariant.2 _ _ "teardown failed" rfl⟩

/-- A wireless scan that found one visible network. -/
def wifiOnlyScan : Except String (List WifiNetwork) :=
  .ok [{ ssid := "HomeNet", signal := 70, security := "wpa2" }]

/-- C8 counterexample: the three collectors are not independent — when the
interface enumeration rejects, `discoverRoutes` returns `[]` even though
the wireless collector succeeded with a visible network, instead of
returning the routes gathered from the collectors that succeeded. -/
theorem c8_counterexample :
    discoverRoutes (.error "interface enumeration failed") wifiOnlyScan (.ok "") = []
    ∧ getWifiNetworks wifiOnlyScan ≠ [] := by
  exact ⟨rfl, by decide⟩

/-- C8 amended: `discoverRoutes` never fails, and when the wireless or the
default-route collector fails the routes gathered from the remaining
collectors are returned; but a failure of the interface enumeration sends
the whole call to the catch arm, which returns the empty sequence
regardless of the other collectors; on total failure the result is
likewise empty. -/
theorem c8_partial_collectors (ifaces : List IfaceInfo)
    (wifiScan : Except String (List WifiNetwork)) (routeExec : Except String String)
    (e ew er : String) :
    discoverRoutes (.error e) wifiScan routeExec = []
    ∧ discoverRoutes (.ok ifaces) (.error ew) routeExec
        = ((ifaces.filter (fun i => i.operstate = "up" ∧ ¬ (i.kind = "loopback"))).map ifaceRoute)
          ++ ((getSystemRoutes routeExec).map sysRoute)
    ∧ discoverRoutes (.ok ifaces) wifiScan (.error er)
        = ((ifaces.filter (fun i => i.operstate = "up" ∧ ¬ (i.kind = "loopback"))).map ifaceRoute)
          ++ ((getWifiNetworks wifiScan).map wifiRoute)
    ∧ discoverRoutes (.error e) (.error ew) (.error er) = [] := by
  refine ⟨rfl, ?_, ?_, rfl⟩
  · simp [discoverRoutes, getWifiNetworks]
  · simp [discoverRoutes, getSystemRoutes]

/-- `ip route show` output carrying two default routes — a routing table
with two candidate gateways. -/
def twoDefaultsOutput : String :=
  "default via 10.0.0.1 dev eth0\ndefault via 10.0.0.2 dev eth1"

/-- C9 counterexample: a snapshot built from two default-gateway routes
assigns both the id `route-0.0.0.0/0` (the destination is the constant
`0.0.0.0/0`, probe.js 327), so ids are not collision-free. -/
theorem c9_counterexample :
    (discoverRoutes (.ok []) (.ok []) (.ok twoDefaultsOutput)).map Route.id
        = ["route-0.0.0.0/0", "route-0.0.0.0/0"]
    ∧ ¬ ((discoverRoutes (.ok []) (.ok []) (.ok twoDefaultsOutput)).map Route.id).Nodup := by
  exact ⟨by decide, by decide⟩

/-- Appending to a fixed left string is injective. -/
theorem string_append_left_inj (p : String) :
    Function.Injective (fun s => p ++ s) := by
  intro a b h
  have hd := congrArg String.data h
  simp [String.data_append] at hd
  exact String.ext hd

/-- A `wifi-`-prefixed id never coincides with a `route-`-prefixed id. -/
theorem wifi_id_ne_route_id (s d : String) : ¬ ("wifi-" ++ s = "route-" ++ d) := by
  intro h
  have hd := congrArg String.data h
  simp [String.data_append] at hd

/-- C9 amended: ids are deterministic (each derives by a fixed scheme from
interface name, SSID, or destination) but collision-free only
conditionally: if the filtered interface names are pairwise distinct, the
visible SSIDs are pairwise distinct, the parsed route destinations are
pairwise distinct, and no interface name coincides with a generated
`wifi-`/`route-` id, then the ids of a snapshot are pairwise distinct.
(Unconditional uniqueness fails: two default routes share destination
`0.0.0.0/0` and hence an id.) -/
theorem c9_ids_nodup (ifaces : List IfaceInfo)
    (wifiScan : Except String (List WifiNetwork)) (routeExec : Except String String)
    (hif : ((ifaces.filter (fun i => i.operstate = "up" ∧ ¬ (i.kind = "loopback"))).map
        IfaceInfo.iface).Nodup)
    (hwf : ((getWifiNetworks wifiScan).map WifiNetwork.ssid).Nodup)
    (hsr : ((getSystemRoutes routeExec).map SysRoute.destination).Nodup)
    (hiw : ∀ i ∈ ifaces.filter (fun i => i.operstate = "up" ∧ ¬ (i.kind = "loopback")),
        ∀ n ∈ getWifiNetworks wifiScan, ¬ (i.iface = "wifi-" ++ n.ssid))
    (hir : ∀ i ∈ ifaces.filter (fun i => i.operstate = "up" ∧ ¬ (i.kind = "loopback")),
        ∀ r ∈ getSystemRoutes routeExec, ¬ (i.iface = "route-" ++ r.destination)) :
    ((discoverRoutes (.ok ifaces) wifiScan routeExec).map Route.id).Nodup := by
  have hids : (discoverRoutes (.ok ifaces) wifiScan routeExec).map Route.id
      = ((ifaces.filter (fun i => i.operstate = "up" ∧ ¬ (i.kind = "loopback"))).map
            IfaceInfo.iface)
        ++ (((getWifiNetworks wifiScan).map WifiNetwork.ssid).map
            (fun s => "wifi-" ++ s))
        ++ (((getSystemRoutes routeExec).map SysRoute.destination).map
            (fun s => "route-" ++ s)) := by
    simp only [discoverRoutes, List.map_append, List.map_map, List.append_assoc]
    rfl
  rw [hids]
  have hwf' : (((getWifiNetworks wifiScan).map WifiNetwork.ssid).map
      (fun s => "wifi-" ++ s)).Nodup := hwf.map (string_append_left_inj "wifi-")
  have hsr' : (((getSystemRoutes routeExec).map SysRoute.destination).map
      (fun s => "route-" ++ s)).Nodup := hsr.map (string_append_left_inj "route-")
  rw [List.append_assoc, List.nodup_append]
  refine ⟨hif, ?_, ?_⟩
  · rw [List.nodup_append]
    refine ⟨hwf', hsr', ?_⟩
    intro x hxw hxr
    obtain ⟨s, _, rfl⟩ := List.mem_map.mp hxw
    obtain ⟨d, _, hd⟩ := List.mem_map.mp hxr
    exact wifi_id_ne_route_id s d hd.symm
  · intro x hxi hxwr
    obtain ⟨i, hi, rfl⟩ := List.mem_map.mp hxi
    rcases List.mem_append.mp hxwr with hxw | hxr
    · obtain ⟨s, hs, hsx⟩ := List.mem_map.mp hxw
      obtain ⟨n, hn, rfl⟩ := List.mem_map.mp hs
      exact hiw i hi n hn hsx.symm
    · obtain ⟨s, hs, hsx⟩ := List.mem_map.mp hxr
      obtain ⟨r, hr, rfl⟩ := List.mem_map.mp hs
      exact hir i hi r hr hsx.symm

/-- Witness for the amended C9: one up interface, one visible network, one
default route — all keys distinct, ids pairwise distinct. -/
theorem c9_ids_witness :
    (([{ iface := "eth0", operstate := "up", kind := "wired"
         ip4 := "192.168.0.2", mac := "aa:bb", speed := 1000 }] :
        List IfaceInfo).filter
          (fun i => i.operstate = "up" ∧ ¬ (i.kind = "loopback"))).map IfaceInfo.iface
        = ["eth0"]
    ∧ ((discoverRoutes
        (.ok [{ iface := "eth0", operstate := "up", kind := "wired"
                ip4 := "192.168.0.2", mac := "aa:bb", speed := 1000 }])
        (.ok [{ ssid := "HomeNet", signal := 70, security := "wpa2" }])
        (.ok "default via 10.0.0.1 dev eth0")).map Route.id).Nodup := by
  refine ⟨by decide, ?_⟩
  exact c9_ids_nodup _ _ _ (by decide) (by decide) (by decide) (by decide) (by decide)

end Hiraishin
